import Mathlib

/-!
Shallow embedding of the approval-checker assignment subsystem
(validation/src/approval/assignments: stories.rs, criteria.rs, tracker.rs,
announcer.rs) and proofs about it.

Machine integers (u32, u64) are modelled as Nat, and the DelayTranche
alias of the source (a u32) is written Nat directly; the places where the Rust
code can overflow or panic are modelled explicitly (Option results for
panics, explicit bound checks where u32::try_from appears).  Rust HashMap
and BTreeMap values are modelled as association lists; only lookup, upsert
and removal are used by the embedded code, and no embedded computation
depends on iteration order beyond what the proofs establish.
-/

/-- Validator identity: an sr25519 public key, abstracted to a number. -/
abbrev ValidatorId := Nat

/-- Parachain identity (polkadot_primitives Id). -/
abbrev ParaId := Nat

/-- Relay chain block hash, abstracted to a number. -/
abbrev Hash := Nat

/-- Error taxonomy of the crate (single tagged variant with a message). -/
inductive Error where
  | BadStory (msg : String)
  | BadAssignment (msg : String)
  deriving DecidableEq

/-- Lookup in an association list keyed by Nat (models HashMap or BTreeMap get). -/
def alLookup {β : Type} : List (Nat × β) → Nat → Option β
  | [], _ => none
  | (k, v) :: rest, key => if k = key then some v else alLookup rest key

/-- Upsert in an association list (models HashMap or BTreeMap insert). -/
def alInsert {β : Type} : List (Nat × β) → Nat → β → List (Nat × β)
  | [], key, val => [(key, val)]
  | (k, v) :: rest, key, val =>
      if k = key then (k, val) :: rest else (k, v) :: alInsert rest key val

/-- Removal from an association list (models HashMap remove). -/
def alRemove {β : Type} : List (Nat × β) → Nat → List (Nat × β)
  | [], _ => []
  | (k, v) :: rest, key => if k = key then rest else (k, v) :: alRemove rest key

theorem alInsert_self {β : Type} (l : List (Nat × β)) (k : Nat) (v : β)
    (h : alLookup l k = some v) : alInsert l k v = l := by
  induction l with
  | nil => simp [alLookup] at h
  | cons hd tl ih =>
      obtain ⟨k0, v0⟩ := hd
      by_cases hk : k0 = k
      · subst hk
        simp [alLookup] at h
        simp [alInsert, h]
      · simp [alLookup, hk] at h
        simp [alInsert, hk, ih h]

/-- ANV_SLOTS_PER_BP_SLOTS constant from stories.rs (12 sub-slots per BP slot). -/
def ANV_SLOTS_PER_BP_SLOTS : Nat := 12

/-- ApprovalContext from stories.rs.  The fields slot, epoch, hash and
authority are the struct fields; numDelayTranches, allowedParaids,
paraidsByCore and numSamples model the per-relay-block on-chain data the
context exposes through accessors (paraids_by_core appears in stories.rs
but is unimplemented there; the other accessors are invoked by tracker.rs
and announcer.rs and are described in section 3 of the spec:
num_delay_tranches, allowed_paraids as a sorted set, num_samples). -/
structure ApprovalContext where
  slot : Nat
  epoch : Nat
  hash : Hash
  authority : ValidatorId
  numDelayTranches : Nat
  allowedParaids : List ParaId
  paraidsByCore : List (Option ParaId)
  numSamples : Nat
  deriving DecidableEq

/-- anv_slot_number from stories.rs: slot times ANV_SLOTS_PER_BP_SLOTS
(the checked_mul panic cannot occur over Nat). -/
def ApprovalContext.anvSlotNumber (c : ApprovalContext) : Nat :=
  c.slot * ANV_SLOTS_PER_BP_SLOTS

/-- The three assignment criteria of criteria.rs, with their per-criterion
data (RelayVRFModulo carries the sample index passed by announcer.rs;
the two delay criteria carry an explicit paraid). -/
inductive CriteriaData where
  | relayVRFModulo (sample : Nat)
  | relayVRFDelay (paraid : ParaId)
  | relayEquivocation (paraid : ParaId)
  deriving DecidableEq

/-- Assignment of criteria.rs.  The VRF input-output pair is abstracted to
the two byte strings the code extracts from it: make_bytes under domain tag
parachain and under domain tag tranche.  The recieved field (spelling from
the source) is the received tranche carried by the assignment signature,
read by tracker.rs through checker_n_recieved. -/
structure Assignment (K : Type) where
  criteria : CriteriaData
  checker : K
  parachainBytes : List Nat
  trancheBytes : List Nat
  recieved : Nat
  deriving DecidableEq

/-- u64::from_le_bytes on a little-endian byte list (bytes are reduced
mod 256 so that arbitrary Nat entries behave as u8 values). -/
def u64FromLeBytes : List Nat → Nat
  | [] => 0
  | b :: rest => b % 256 + 256 * u64FromLeBytes rest

/-- Position::paraid from criteria.rs.  RelayVRFModulo: 8 little-endian
bytes under tag parachain, as u64, reduced mod the number of allowed
paraids, indexing the sorted allowed_paraids sequence (Rust would panic on
an empty sequence via mod-by-zero: modelled as none).  Delay criteria:
the explicit paraid, which must be in allowed_paraids (binary_search in
the source; an absent paraid yields the BadAssignment error at the caller,
modelled as none). -/
def Assignment.paraid {K : Type} (a : Assignment K) (context : ApprovalContext) :
    Option ParaId :=
  match a.criteria with
  | CriteriaData.relayVRFModulo _ =>
      let paraids := context.allowedParaids
      if h : 0 < paraids.length then
        some (paraids.get ⟨u64FromLeBytes a.parachainBytes % paraids.length,
          Nat.mod_lt _ h⟩)
      else none
  | CriteriaData.relayVRFDelay p =>
      if p ∈ context.allowedParaids then some p else none
  | CriteriaData.relayEquivocation p =>
      if p ∈ context.allowedParaids then some p else none

/-- Position::delay_tranche from criteria.rs.  RelayVRFModulo always has
tranche 0.  For the delay criteria the source divides the u64 read from
8 little-endian bytes under tag tranche by max_tranches, a divisor left
unimplemented in criteria.rs; modelled from the spec: the divisor is
num_delay_tranches. -/
def Assignment.delayTranche {K : Type} (a : Assignment K)
    (context : ApprovalContext) : Nat :=
  match a.criteria with
  | CriteriaData.relayVRFModulo _ => 0
  | CriteriaData.relayVRFDelay _ =>
      u64FromLeBytes a.trancheBytes % context.numDelayTranches
  | CriteriaData.relayEquivocation _ =>
      u64FromLeBytes a.trancheBytes % context.numDelayTranches

/-- CheckerStatus from tracker.rs. -/
structure CheckerStatus where
  approved : Bool
  mine : Bool
  deriving DecidableEq

/-- Modelled from the spec: ApprovalTargets of section 3 is declared in the
repository outside src (tracker.rs imports it from the parent module);
fields relay_vrf_checkers (default 20), relay_equivocation_checkers
(default 0) and noshow_timeout. -/
structure ApprovalTargets where
  relayVrfCheckers : Nat
  relayEquivocationCheckers : Nat
  noshowTimeout : Nat
  deriving DecidableEq

/-- Modelled from the spec: the default ApprovalTargets (20 relay-VRF
checkers, 0 equivocation checkers; no default is stated for
noshow_timeout, whose Rust Default is 0). -/
def ApprovalTargets.default : ApprovalTargets :=
  { relayVrfCheckers := 20, relayEquivocationCheckers := 0, noshowTimeout := 0 }

/-- The two story classes, replacing the TypeId dispatch of tracker.rs. -/
inductive StoryKind where
  | relayVRFStory
  | relayEquivocationStory
  deriving DecidableEq

/-- Modelled from the spec: targets.target with story class S yields the
relay-VRF checker target or the equivocation checker target (20 or 0
initially, per the section 4.3 pseudocode). -/
def ApprovalTargets.target (t : ApprovalTargets) (s : StoryKind) : Nat :=
  match s with
  | StoryKind.relayVRFStory => t.relayVrfCheckers
  | StoryKind.relayEquivocationStory => t.relayEquivocationCheckers

/-- Modelled from the spec: AssigneeStatus is declared in the repository
outside src; its fields are exactly those the tracker.rs loop populates. -/
structure AssigneeStatus where
  tranche : Nat
  target : Nat
  approved : Nat
  waiting : Nat
  noshows : Nat
  debt : Nat
  assigned : Nat
  deriving DecidableEq

/-- Modelled from the spec: a candidate is approved under a story when the
no-show loop terminates with assigned > target and debt == 0 (the
is_approved method of AssigneeStatus is declared outside src). -/
def AssigneeStatus.isApproved (c : AssigneeStatus) : Bool :=
  decide (c.target < c.assigned) && decide (c.debt = 0)

/-- Counter struct from tracker.rs. -/
structure Counter where
  approved : Nat
  waiting : Nat
  noshows : Nat
  assigned : Nat
  deriving DecidableEq

/-- AssignmentsByDelay from tracker.rs: BTreeMap from delay tranche to the
bucket of assignments in that tranche. -/
abbrev AssignmentsByDelay (K : Type) := List (Nat × List (Assignment K))

/-- insert_assignment_checked from tracker.rs.  The entry or_insert call is
transcribed as the map m1 (inserting an empty bucket when absent); the
duplicate check then inspects the bucket for the same checker and errors,
leaving m1 as the post-state of the mutation, else pushes the assignment. -/
def insertAssignmentChecked (m : AssignmentsByDelay ValidatorId)
    (a : Assignment ValidatorId) (context : ApprovalContext) :
    Option Error × AssignmentsByDelay ValidatorId :=
  let delayTranche := a.delayTranche context
  let m1 := match alLookup m delayTranche with
    | some _ => m
    | none => alInsert m delayTranche []
  let v := (alLookup m1 delayTranche).getD []
  if v.any (fun a0 => a0.checker = a.checker) then
    (some (Error.BadAssignment ("Attempted inserting duplicate assignment!")), m1)
  else
    (none, alInsert m1 delayTranche (v ++ [a]))

/-- insert_assignment_unchecked from tracker.rs (used for our own pending
assignments, skipping the duplicate check). -/
def insertAssignmentUnchecked (m : AssignmentsByDelay Unit) (a : Assignment Unit)
    (context : ApprovalContext) : AssignmentsByDelay Unit :=
  let delayTranche := a.delayTranche context
  let v := (alLookup m delayTranche).getD []
  alInsert m delayTranche (v ++ [a])

/-- iter_checker_n_recieved from tracker.rs: the checkers and received
tranches of the bucket at one tranche. -/
def iterCheckerNRecieved (m : AssignmentsByDelay ValidatorId)
    (tranche : Nat) : List (ValidatorId × Nat) :=
  ((alLookup m tranche).getD []).map (fun a => (a.checker, a.recieved))

/-- CandidateTracker from tracker.rs. -/
structure CandidateTracker where
  targets : ApprovalTargets
  checkers : List (ValidatorId × CheckerStatus)
  relayVrfModulo : AssignmentsByDelay ValidatorId
  relayVrfDelay : AssignmentsByDelay ValidatorId
  relayEquivocation : AssignmentsByDelay ValidatorId
  deriving DecidableEq

/-- access_criteria_mut from tracker.rs (read side): the downcast chain
selects the container matching the criterion. -/
def CandidateTracker.accessCriteria (ct : CandidateTracker) (c : CriteriaData) :
    AssignmentsByDelay ValidatorId :=
  match c with
  | CriteriaData.relayVRFModulo _ => ct.relayVrfModulo
  | CriteriaData.relayVRFDelay _ => ct.relayVrfDelay
  | CriteriaData.relayEquivocation _ => ct.relayEquivocation

/-- access_criteria_mut from tracker.rs (write side). -/
def CandidateTracker.setCriteria (ct : CandidateTracker) (c : CriteriaData)
    (m : AssignmentsByDelay ValidatorId) : CandidateTracker :=
  match c with
  | CriteriaData.relayVRFModulo _ => { ct with relayVrfModulo := m }
  | CriteriaData.relayVRFDelay _ => { ct with relayVrfDelay := m }
  | CriteriaData.relayEquivocation _ => { ct with relayEquivocation := m }

/-- is_approved_by_checker from tracker.rs. -/
def CandidateTracker.isApprovedByChecker (ct : CandidateTracker)
    (checker : ValidatorId) : Option Bool :=
  (alLookup ct.checkers checker).map (fun status => status.approved)

/-- approve from tracker.rs.  On an occupied entry the mine flags must
agree (else BadAssignment) and approved is set; on a vacant entry the
source inserts CheckerStatus with approved true and mine false.  The
first component models the Rust Result, the second the post-state. -/
def CandidateTracker.approve (ct : CandidateTracker) (checker : ValidatorId)
    (mine : Bool) : Option Error × CandidateTracker :=
  match alLookup ct.checkers checker with
  | some e =>
      if e.mine != mine then
        (some (Error.BadAssignment
          ("Attempted to approve my own assignment from Tracker or visa versa!")), ct)
      else
        (none, { ct with checkers :=
          (alInsert ct.checkers checker { e with approved := true }) })
  | none =>
      (none, { ct with checkers :=
        (alInsert ct.checkers checker { approved := true, mine := false }) })

/-- approve_others from tracker.rs. -/
def CandidateTracker.approveOthers (ct : CandidateTracker)
    (checker : ValidatorId) : Option Error × CandidateTracker :=
  ct.approve checker false

/-- The deduplicating map cm of assignee_counter: entry and_modify keeps the
minimum received tranche, or_insert records the first one. -/
def cmAdd (cm : List (ValidatorId × Nat)) (checker : ValidatorId)
    (recieved : Nat) : List (ValidatorId × Nat) :=
  match alLookup cm checker with
  | some r => alInsert cm checker (min r recieved)
  | none => cm ++ [(checker, recieved)]

/-- assignee_counter from tracker.rs: counts assigned checkers with a known
CheckerStatus, deduplicates the unapproved ones into cm, and derives the
approved, waiting and noshow counts (u32 subtraction cannot underflow here
because every cm entry also incremented assigned). -/
def CandidateTracker.assigneeCounter (ct : CandidateTracker)
    (items : List (ValidatorId × Nat)) (noshowTranche : Nat) :
    Counter :=
  let r := items.foldl
    (fun (acc : Nat × List (ValidatorId × Nat)) it =>
      match ct.isApprovedByChecker it.1 with
      | some b => (acc.1 + 1, if b then acc.2 else cmAdd acc.2 it.1 it.2)
      | none => acc)
    (0, [])
  let assigned := r.1
  let waiting0 := r.2.length
  let noshows := (r.2.filter (fun p => p.2 < noshowTranche)).length
  { approved := assigned - waiting0, waiting := waiting0 - noshows,
    noshows := noshows, assigned := assigned }

/-- count_assignees_in_tranche from tracker.rs: under the relay-VRF story
the modulo and delay containers are chained; under the equivocation story
only the equivocation container is counted. -/
def CandidateTracker.countAssigneesInTranche (ct : CandidateTracker)
    (s : StoryKind) (tranche : Nat) (noshowTranche : Nat) :
    Counter :=
  match s with
  | StoryKind.relayVRFStory =>
      ct.assigneeCounter
        (iterCheckerNRecieved ct.relayVrfModulo tranche
          ++ iterCheckerNRecieved ct.relayVrfDelay tranche)
        noshowTranche
  | StoryKind.relayEquivocationStory =>
      ct.assigneeCounter (iterCheckerNRecieved ct.relayEquivocation tranche)
        noshowTranche

/-- One fold of a tranche Counter into the running AssigneeStatus, plus the
tranche increment, exactly as in the tracker.rs loop body. -/
def foldCounterStep (c : AssigneeStatus) (d : Counter) : AssigneeStatus :=
  { tranche := c.tranche + 1, target := c.target,
    approved := c.approved + d.approved, waiting := c.waiting + d.waiting,
    noshows := c.noshows + d.noshows, debt := c.debt + d.noshows,
    assigned := c.assigned + d.assigned }

/-- One iteration of the tracker.rs loop on the running status: count the
assignees of the current tranche and fold them in. -/
def CandidateTracker.trancheStep (ct : CandidateTracker) (s : StoryKind)
    (c : AssigneeStatus) (noshowTimeout : Nat) : AssigneeStatus :=
  let d := ct.countAssigneesInTranche s c.tranche noshowTimeout
  foldCounterStep c d

/-- The assignee_tracker loop of tracker.rs, written with explicit fuel.
The from_fn iterator stops (returns None) when
tranche + noshow_timeout > now + targets.noshow_timeout or after the done
flag was set; approval_status takes the last emitted status, which is the
status at the moment the loop stopped.  Each iteration increments tranche
by one and noshow_timeout never drops below targets.noshow_timeout, so
starting from tranche 0 the loop runs at most now + 1 iterations: fuel
now + 1 is never exhausted before the stop condition fires, and the fuel 0
branch (returning the running status) coincides with the stop branch. -/
def CandidateTracker.assigneeTrackerGo (ct : CandidateTracker) (s : StoryKind)
    (now : Nat) :
    Nat → AssigneeStatus → Nat → AssigneeStatus
  | 0, c, _ => c
  | Nat.succ fuel, c, noshowTimeout =>
      if now + ct.targets.noshowTimeout < c.tranche + noshowTimeout then c
      else
        let c1 := ct.trancheStep s c noshowTimeout
        if c1.assigned ≤ c1.target then
          ct.assigneeTrackerGo s now fuel c1 noshowTimeout
        else if c1.debt = 0 then c1
        else
          ct.assigneeTrackerGo s now fuel
            { c1 with target := c1.assigned, debt := 0 }
            (noshowTimeout + ct.targets.noshowTimeout)

/-- The initial AssigneeStatus of the tracker.rs loop. -/
def CandidateTracker.initialStatus (ct : CandidateTracker) (s : StoryKind) :
    AssigneeStatus :=
  { tranche := 0, target := ct.targets.target s, approved := 0, waiting := 0,
    noshows := 0, debt := 0, assigned := 0 }

/-- approval_status from tracker.rs: the last status emitted by
assignee_tracker at the given current tranche. -/
def CandidateTracker.approvalStatus (ct : CandidateTracker) (s : StoryKind)
    (now : Nat) : AssigneeStatus :=
  ct.assigneeTrackerGo s now (now + 1) (ct.initialStatus s)
    ct.targets.noshowTimeout

/-- is_approved_before from tracker.rs: both stories must be approved. -/
def CandidateTracker.isApprovedBefore (ct : CandidateTracker)
    (now : Nat) : Bool :=
  (ct.approvalStatus StoryKind.relayVRFStory now).isApproved
    && (ct.approvalStatus StoryKind.relayEquivocationStory now).isApproved

/-- RelayVRFStory from stories.rs: the 32 bytes derived from the relay
chain VRF under domain tag A&V RC-VRF (the bytes themselves are opaque to
the tracker). -/
structure RelayVRFStory where
  anvRcVrfSource : List Nat
  deriving DecidableEq

/-- RelayEquivocationStory from stories.rs. -/
structure RelayEquivocationStory where
  header : Hash
  relayEquivocations : List Hash
  candidateEquivocations : List (ParaId × Hash)
  deriving DecidableEq

/-- Tracker from tracker.rs. -/
structure Tracker where
  context : ApprovalContext
  currentSlot : Nat
  relayVrfStory : RelayVRFStory
  relayEquivocationStory : RelayEquivocationStory
  candidates : List (ParaId × CandidateTracker)
  deriving DecidableEq

/-- Tracker::new from tracker.rs: current_slot starts at
context.anv_slot_number and the candidate map starts empty.  The stories
are passed in because their construction in stories.rs depends on
unimplemented chain fetchers; the target argument of the source is unused
there and kept here for fidelity. -/
def Tracker.new (context : ApprovalContext) (relayVrfStory : RelayVRFStory)
    (relayEquivocationStory : RelayEquivocationStory) (target : Nat) : Tracker :=
  let _ := target
  { context := context, currentSlot := context.anvSlotNumber,
    relayVrfStory := relayVrfStory,
    relayEquivocationStory := relayEquivocationStory, candidates := [] }

/-- initalize_candidate from tracker.rs (source spelling), returning the
new tracker and whether the paraid was fresh. -/
def Tracker.initalizeCandidate (t : Tracker) (paraid : ParaId) :
    Tracker × Bool :=
  let fresh := (alLookup t.candidates paraid).isNone
  ({ t with candidates := (alInsert t.candidates paraid
      { targets := ApprovalTargets.default, checkers := [],
        relayVrfModulo := [], relayVrfDelay := [], relayEquivocation := [] }) },
   fresh)

/-- insert_assignment from tracker.rs.  The first component models the
Rust Result, the second the post-state (including the mutation that the
entry or_insert of insert_assignment_checked may have applied before an
error was returned). -/
def Tracker.insertAssignment (t : Tracker) (a : Assignment ValidatorId)
    (mine : Bool) : Option Error × Tracker :=
  match a.paraid t.context with
  | none => (some (Error.BadAssignment ("Insert attempted on missing ParaId.")), t)
  | some paraid =>
      match alLookup t.candidates paraid with
      | none => (some (Error.BadAssignment ("Absent ParaId")), t)
      | some candidate =>
          let mineErr : Bool := match alLookup candidate.checkers a.checker with
            | some cs => cs.mine != mine
            | none => false
          if mineErr then
            (some (Error.BadAssignment
              ("Attempted inserting assignment with disagreement over it being mine!")), t)
          else
            let r := insertAssignmentChecked
              (candidate.accessCriteria a.criteria) a t.context
            let candidate1 := candidate.setCriteria a.criteria r.2
            match r.1 with
            | some e =>
                (some e, { t with candidates :=
                  (alInsert t.candidates paraid candidate1) })
            | none =>
                let candidate2 := { candidate1 with checkers :=
                  (match alLookup candidate1.checkers a.checker with
                   | some _ => candidate1.checkers
                   | none => alInsert candidate1.checkers a.checker
                       { approved := false, mine := mine }) }
                (none, { t with candidates :=
                  (alInsert t.candidates paraid candidate2) })

/-- delay_tranche from tracker.rs.  The source computes
checked_sub(anv_slot_number) and then u32::try_from(max(diff,
num_delay_tranches - 1)).ok(): note the max where the spec states min; the
u32 conversion failure is modelled by the explicit 2^32 bound.  The u32
subtraction num_delay_tranches - 1 is Nat subtraction here (the Rust code
would panic or wrap when num_delay_tranches = 0). -/
def Tracker.delayTranche (t : Tracker) (slot : Nat) : Option Nat :=
  if slot < t.context.anvSlotNumber then none
  else
    let d := slot - t.context.anvSlotNumber
    let m := max d (t.context.numDelayTranches - 1)
    if m < 2 ^ 32 then some m else none

/-- Modelled from the spec: delay_tranche(slot) returns
min(slot - anv_slot_number, num_delay_tranches - 1) when
slot >= anv_slot_number, else none (section 4.4 time helpers). -/
def Tracker.delayTrancheSpec (t : Tracker) (slot : Nat) : Option Nat :=
  if slot < t.context.anvSlotNumber then none
  else some (min (slot - t.context.anvSlotNumber)
    (t.context.numDelayTranches - 1))

/-- current_delay_tranche from tracker.rs; the source unwraps with expect,
modelled by keeping the Option. -/
def Tracker.currentDelayTranche (t : Tracker) : Option Nat :=
  t.delayTranche t.currentSlot

/-- is_approved from tracker.rs: all candidates approved before the current
delay tranche (none models the expect panic inside
current_delay_tranche). -/
def Tracker.isApproved (t : Tracker) : Option Bool :=
  (t.currentDelayTranche).map
    (fun now => t.candidates.all (fun pc => pc.2.isApprovedBefore now))

/-- AssignmentSigned.  Modelled from the spec: the struct in criteria.rs
under src lacks the received_tranche field, but its in-repository callers
(tracker.rs verify_only passes a tranche to verify, announcer.rs signs
with a received tranche, tracker.rs reads checker_n_recieved) use the
two-argument form described in sections 3 and 4.1 of the spec; the crypto
payload (public key, VRF pre-output, proof) is abstracted to the extracted
VRF output bytes plus a validity flag standing for the outcome of parsing
and DLEQ verification (steps 1 to 3 of the spec verification). -/
structure AssignmentSigned where
  context : ApprovalContext
  criteria : CriteriaData
  checker : ValidatorId
  parachainBytes : List Nat
  trancheBytes : List Nat
  receivedTranche : Nat
  cryptoValid : Bool
  deriving DecidableEq

/-- The Assignment recovered from a signed announcement. -/
def AssignmentSigned.toAssignment (s : AssignmentSigned) :
    Assignment ValidatorId :=
  { criteria := s.criteria, checker := s.checker,
    parachainBytes := s.parachainBytes, trancheBytes := s.trancheBytes,
    recieved := s.receivedTranche }

/-- Criteria::vrf_input success or failure, from criteria.rs: sample > 0 is
rejected for RelayVRFModulo, and RelayEquivocation requires its paraid to
be a known candidate equivocation of the story. -/
def vrfInputCheck (c : CriteriaData) (estory : RelayEquivocationStory) :
    Option Error :=
  match c with
  | CriteriaData.relayVRFModulo sample =>
      if 0 < sample then
        some (Error.BadAssignment
          ("RelayVRFModulo does not yet support additional samples"))
      else none
  | CriteriaData.relayVRFDelay _ => none
  | CriteriaData.relayEquivocation p =>
      if (alLookup estory.candidateEquivocations p).isNone then
        some (Error.BadStory ("Not a candidate equivocation"))
      else none

/-- Modelled from the spec: AssignmentSigned::verify(story, now_tranche),
absent from criteria.rs under src but invoked by tracker.rs.  Steps per
section 4.1: (1-3) parse the key, pre-output and proof, rebuild the VRF
input (sample and equivocation checks from criteria.rs vrf_input) and
DLEQ-verify, any failure giving BadAssignment or BadStory; (4) enforce
received_tranche >= derived tranche, else BadAssignment; (5) return the
context and the authenticated assignment.  The now_tranche argument is
unused by the specified steps. -/
def AssignmentSigned.verify (s : AssignmentSigned)
    (estory : RelayEquivocationStory) (nowTranche : Nat) :
    Except Error (ApprovalContext × Assignment ValidatorId) :=
  let _ := nowTranche
  if s.cryptoValid = false then
    Except.error (Error.BadAssignment ("Bad VRF signature (invalid)"))
  else
    match vrfInputCheck s.criteria estory with
    | some e => Except.error e
    | none =>
        let a := s.toAssignment
        if s.receivedTranche < a.delayTranche s.context then
          Except.error (Error.BadAssignment
            ("Announced recieved tranche before VRF-derived tranche"))
        else Except.ok (s.context, a)

/-- Watcher from tracker.rs: a read-only wrapper around Tracker. -/
structure Watcher where
  tracker : Tracker
  deriving DecidableEq

/-- into_watcher from tracker.rs. -/
def Tracker.intoWatcher (t : Tracker) : Watcher :=
  { tracker := t }

/-- Watcher::advance_anv_slot from tracker.rs: current_slot becomes
max(current_slot, slot). -/
def Watcher.advanceAnvSlot (w : Watcher) (slot : Nat) : Watcher :=
  { w with tracker :=
    { w.tracker with currentSlot := max w.tracker.currentSlot slot } }

/-- Assignment::sign from criteria.rs plus the received tranche taken by
the announcer call sites: signing attaches our key and the received
tranche to the computed VRF data. -/
def Assignment.sign (a : Assignment Unit) (myself : ValidatorId)
    (recieved : Nat) : Assignment ValidatorId :=
  { criteria := a.criteria, checker := myself,
    parachainBytes := a.parachainBytes, trancheBytes := a.trancheBytes,
    recieved := recieved }

/-- to_signed as used by announcer.rs: bundle the context with the signed
assignment data (a freshly produced signature is valid). -/
def Assignment.toSigned (a : Assignment ValidatorId)
    (context : ApprovalContext) : AssignmentSigned :=
  { context := context, criteria := a.criteria, checker := a.checker,
    parachainBytes := a.parachainBytes, trancheBytes := a.trancheBytes,
    receivedTranche := a.recieved, cryptoValid := true }

/-- Announcer from announcer.rs.  The keypair is abstracted to the public
validator identity; the three announced stores and two pending buckets
mirror the struct fields. -/
structure Announcer where
  tracker : Tracker
  myself : ValidatorId
  pendingRelayVrfDelay : AssignmentsByDelay Unit
  pendingRelayEquivocation : AssignmentsByDelay Unit
  announcedRelayVrfModulo : List (ParaId × AssignmentSigned)
  announcedRelayVrfDelay : List (ParaId × AssignmentSigned)
  announcedRelayEquivocation : List (ParaId × AssignmentSigned)
  deriving DecidableEq

/-- The filter closure of announce_pending_from_assignees in announcer.rs:
keep a pending assignment when its paraid is still in the assignee-status
map and its VRF-derived tranche is at most the tranche of that status;
a kept paraid is removed from the map so it is not announced twice. -/
def announceFilter (context : ApprovalContext)
    (assignees : List (ParaId × AssigneeStatus)) (a : Assignment Unit) :
    Bool × List (ParaId × AssigneeStatus) :=
  match a.paraid context with
  | some paraid =>
      let b := match alLookup assignees paraid with
        | some c => decide (a.delayTranche context ≤ c.tranche)
        | none => false
      if b then (true, alRemove assignees paraid) else (false, assignees)
  | none => (false, assignees)

/-- Modelled from the spec: drain_filter on one tranche bucket (absent
from tracker.rs under src, invoked by announcer.rs); the stateful filter
runs left to right over the bucket, the matched assignments are drained in
order and the rest kept.  Returns (drained, kept, updated assignee map). -/
def drainFilterGo (context : ApprovalContext) :
    List (Assignment Unit) → List (ParaId × AssigneeStatus) →
    List (Assignment Unit) × List (Assignment Unit) ×
      List (ParaId × AssigneeStatus)
  | [], assignees => ([], [], assignees)
  | a :: rest, assignees =>
      let r := announceFilter context assignees a
      let rec0 := drainFilterGo context rest r.2
      if r.1 then (a :: rec0.1, rec0.2.1, rec0.2.2)
      else (rec0.1, a :: rec0.2.1, rec0.2.2)

/-- The release loop body of announce_pending_with in announcer.rs: each
drained assignment is signed with received = current_delay_tranche,
inserted into the tracker with mine = true (an insertion error or a
missing paraid is a fatal expect in the source, modelled as none), and
stored in the announced map.  Because announce_pending_from_assignees
instantiates announce_pending_with at criteria::RelayVRFDelay for both of
its call sites, the announced store is always announced_relay_vrf_delay. -/
def Announcer.announceDrained (context : ApprovalContext) :
    Announcer → List (Assignment Unit) → Option Announcer
  | ann, [] => some ann
  | ann, a :: rest =>
      match ann.tracker.currentDelayTranche with
      | none => none
      | some recieved =>
          match a.paraid context with
          | none => none
          | some paraid =>
              let a1 := a.sign ann.myself recieved
              let aSigned := a1.toSigned context
              let r := ann.tracker.insertAssignment a1 true
              match r.1 with
              | some _ => none
              | none =>
                  Announcer.announceDrained context
                    { ann with
                        tracker := r.2,
                        announcedRelayVrfDelay :=
                          (alInsert ann.announcedRelayVrfDelay paraid aSigned) }
                    rest

/-- announce_pending_from_assignees from announcer.rs for one tranche:
drain the pending relay-VRF-delay bucket at that tranche through the
stateful filter, then sign, insert and store each drained assignment. -/
def Announcer.announcePendingFromAssignees (ann : Announcer)
    (tranche : Nat) (context : ApprovalContext)
    (assignees : List (ParaId × AssigneeStatus)) :
    Option (Announcer × List (ParaId × AssigneeStatus)) :=
  let v := (alLookup ann.pendingRelayVrfDelay tranche).getD []
  let r := drainFilterGo context v assignees
  let ann1 := { ann with pendingRelayVrfDelay :=
    (alInsert ann.pendingRelayVrfDelay tranche r.2.1) }
  match Announcer.announceDrained context ann1 r.1 with
  | none => none
  | some ann2 => some (ann2, r.2.2)

/-- The tranche loop of Announcer::advance_anv_slot: for each tranche the
relay-VRF assignee map and then the equivocation assignee map drive one
announce_pending_from_assignees pass (both passes drain the
relay-VRF-delay pending bucket, per the hardcoded criterion noted above). -/
def Announcer.advanceTranches (context : ApprovalContext) :
    List Nat → Announcer → List (ParaId × AssigneeStatus) →
    List (ParaId × AssigneeStatus) → Option Announcer
  | [], ann, _, _ => some ann
  | tranche :: rest, ann, relayVrfAssignees, relayEquivocationAssignees =>
      match ann.announcePendingFromAssignees tranche context
        relayVrfAssignees with
      | none => none
      | some r1 =>
          match r1.1.announcePendingFromAssignees tranche context
            relayEquivocationAssignees with
          | none => none
          | some r2 =>
              Announcer.advanceTranches context rest r2.1 r1.2 r2.2

/-- Announcer::advance_anv_slot from announcer.rs.  When
new_slot < current_slot it returns at once; otherwise it computes the new
delay tranche (expect), the current tranche now (expect), rebuilds the
assignee-status maps for unapproved candidates under both stories at now,
and runs the tranche loop over 0..now.  The source never writes
current_slot anywhere in this method.  none models the expect panics. -/
def Announcer.advanceAnvSlot (ann : Announcer) (newSlot : Nat) :
    Option Announcer :=
  if newSlot < ann.tracker.currentSlot then some ann
  else
    match ann.tracker.delayTranche newSlot with
    | none => none
    | some _newNat =>
        match ann.tracker.currentDelayTranche with
        | none => none
        | some now =>
            let maps := ann.tracker.candidates.foldl
              (fun (acc : List (ParaId × AssigneeStatus) ×
                     List (ParaId × AssigneeStatus)) pc =>
                let c1 := pc.2.approvalStatus StoryKind.relayVRFStory now
                let acc1 := if c1.isApproved then acc.1
                  else acc.1 ++ [(pc.1, c1)]
                let c2 := pc.2.approvalStatus
                  StoryKind.relayEquivocationStory now
                let acc2 := if c2.isApproved then acc.2
                  else acc.2 ++ [(pc.1, c2)]
                (acc1, acc2))
              ([], [])
            Announcer.advanceTranches ann.tracker.context (List.range now)
              ann maps.1 maps.2

/-- Announcer::approve_mine from announcer.rs: approve our own checker on
the candidate (errors propagate with the state unchanged), then re-run
advance_anv_slot at the current slot.  The outer none models a panic
inside advance_anv_slot. -/
def Announcer.approveMine (ann : Announcer) (paraid : ParaId) :
    Option (Option Error × Announcer) :=
  match alLookup ann.tracker.candidates paraid with
  | none => some (some (Error.BadAssignment ("Absent ParaId")), ann)
  | some candidate =>
      let r := candidate.approve ann.myself true
      match r.1 with
      | some e => some (some e, ann)
      | none =>
          let ann1 := { ann with tracker :=
            { ann.tracker with candidates :=
              (alInsert ann.tracker.candidates paraid r.2) } }
          match ann1.advanceAnvSlot ann1.tracker.currentSlot with
          | none => none
          | some ann2 => some (none, ann2)

/-- The public operations that can touch a Tracker or one of its wrappers
after construction, used to state trace invariants. -/
inductive Op where
  | initCandidate (paraid : ParaId)
  | insertAssignment (a : Assignment ValidatorId) (mine : Bool)
  | approveOthers (paraid : ParaId) (checker : ValidatorId)
  | approveMine (paraid : ParaId)
  | watcherAdvance (slot : Nat)
  | announcerAdvance (slot : Nat)

/-- Apply one operation to an announcer-shaped state (a Watcher is the
special case that only uses the tracker component).  Errors leave the
state as the mutated-so-far state per the Rust semantics; an expect panic
inside the announcer paths aborts the operation with the state kept, which
is sound for slot-invariant claims because a panic stops the trace. -/
def applyOp (ann : Announcer) (op : Op) : Announcer :=
  match op with
  | Op.initCandidate p =>
      { ann with tracker := (ann.tracker.initalizeCandidate p).1 }
  | Op.insertAssignment a mine =>
      { ann with tracker := (ann.tracker.insertAssignment a mine).2 }
  | Op.approveOthers p v =>
      match alLookup ann.tracker.candidates p with
      | none => ann
      | some candidate =>
          { ann with tracker := { ann.tracker with candidates :=
            (alInsert ann.tracker.candidates p (candidate.approve v false).2) } }
  | Op.approveMine p =>
      match ann.approveMine p with
      | some r => r.2
      | none => ann
  | Op.watcherAdvance s =>
      { ann with tracker :=
        { ann.tracker with currentSlot := max ann.tracker.currentSlot s } }
  | Op.announcerAdvance s => (ann.advanceAnvSlot s).getD ann

/-- Apply a sequence of operations. -/
def applyOps (ann : Announcer) (ops : List Op) : Announcer :=
  ops.foldl applyOp ann

/-- Modelled from the spec: the outcome of one iteration body of the
section 4.3 no-show accounting loop, either continuing with an updated
status and no-show timeout or halting. -/
inductive SpecStep where
  | next (c : AssigneeStatus) (noshowTimeout : Nat)
  | halt (c : AssigneeStatus)

/-- Modelled from the spec: the body of the section 4.3 loop.  Fold the
tranche counts, advance the tranche; continue when assigned <= target;
stop approved when debt == 0; otherwise escalate by setting target to the
running assigned count, resetting debt to 0 and adding
targets.noshow_timeout to noshow_timeout. -/
def specLoopBody (ct : CandidateTracker) (s : StoryKind) (c : AssigneeStatus)
    (noshowTimeout : Nat) : SpecStep :=
  let d := ct.countAssigneesInTranche s c.tranche noshowTimeout
  let c1 := foldCounterStep c d
  if c1.assigned ≤ c1.target then SpecStep.next c1 noshowTimeout
  else if c1.debt = 0 then SpecStep.halt c1
  else SpecStep.next { c1 with target := c1.assigned, debt := 0 }
    (noshowTimeout + ct.targets.noshowTimeout)

/-- Modelled from the spec: the driver of the section 4.3 loop, stopping
once tranche + noshow_timeout > now + targets.noshow_timeout, with the
same fuel convention as the source embedding. -/
def specLoopRun (ct : CandidateTracker) (s : StoryKind) (now : Nat) :
    Nat → AssigneeStatus → Nat → AssigneeStatus
  | 0, c, _ => c
  | Nat.succ fuel, c, noshowTimeout =>
      if now + ct.targets.noshowTimeout < c.tranche + noshowTimeout then c
      else
        match specLoopBody ct s c noshowTimeout with
        | SpecStep.halt c1 => c1
        | SpecStep.next c1 nst1 => specLoopRun ct s now fuel c1 nst1

/-- Modelled from the spec: a candidate is approved under story S when the
section 4.3 loop terminates with assigned > target and debt == 0. -/
def specNoShowOutcome (ct : CandidateTracker) (s : StoryKind)
    (now : Nat) : Prop :=
  let c := specLoopRun ct s now (now + 1) (ct.initialStatus s)
    ct.targets.noshowTimeout
  c.target < c.assigned ∧ c.debt = 0

theorem specLoopRun_eq_assigneeTrackerGo (ct : CandidateTracker)
    (s : StoryKind) (now : Nat) (fuel : Nat) (c : AssigneeStatus)
    (noshowTimeout : Nat) :
    specLoopRun ct s now fuel c noshowTimeout
      = ct.assigneeTrackerGo s now fuel c noshowTimeout := by
  induction fuel generalizing c noshowTimeout with
  | zero => rfl
  | succ fuel ih =>
      rw [specLoopRun, CandidateTracker.assigneeTrackerGo]
      by_cases hstop :
          now + ct.targets.noshowTimeout < c.tranche + noshowTimeout
      · simp [hstop]
      · simp only [hstop, if_false, specLoopBody, CandidateTracker.trancheStep]
        by_cases hcont :
            (foldCounterStep c
              (ct.countAssigneesInTranche s c.tranche noshowTimeout)).assigned
            ≤ (foldCounterStep c
              (ct.countAssigneesInTranche s c.tranche noshowTimeout)).target
        · simp [hcont, ih]
        · by_cases hdebt :
              (foldCounterStep c
                (ct.countAssigneesInTranche s c.tranche noshowTimeout)).debt = 0
          · simp [hcont, hdebt]
          · simp [hcont, hdebt, ih]

/-- C1: for every CandidateTracker and tranche now, is_approved_before(now)
holds exactly when, for both stories, the section 4.3 no-show accounting
loop (stopping once tranche + noshow_timeout > now + targets.noshow_timeout
and, on each escalation, setting target to the running assigned count,
resetting debt to 0 and adding targets.noshow_timeout to noshow_timeout)
terminates with assigned > target and debt == 0; the per-story predicate
of approval_status is exactly that outcome. -/
theorem is_approved_before_iff_noshow_loop (ct : CandidateTracker)
    (now : Nat) :
    ct.isApprovedBefore now = true ↔
      (specNoShowOutcome ct StoryKind.relayVRFStory now
        ∧ specNoShowOutcome ct StoryKind.relayEquivocationStory now) := by
  simp [CandidateTracker.isApprovedBefore, CandidateTracker.approvalStatus,
    AssigneeStatus.isApproved, specNoShowOutcome,
    specLoopRun_eq_assigneeTrackerGo, Bool.and_eq_true, decide_eq_true_eq]

theorem assigneeTrackerGo_succ_stop (ct : CandidateTracker) (s : StoryKind)
    (now : Nat) (fuel : Nat) (c : AssigneeStatus)
    (nst : Nat)
    (h : now + ct.targets.noshowTimeout < c.tranche + nst) :
    ct.assigneeTrackerGo s now (Nat.succ fuel) c nst = c := by
  rw [CandidateTracker.assigneeTrackerGo]
  simp [h]

theorem assigneeTrackerGo_succ_go (ct : CandidateTracker) (s : StoryKind)
    (now : Nat) (fuel : Nat) (c : AssigneeStatus)
    (nst : Nat)
    (h : ¬ (now + ct.targets.noshowTimeout < c.tranche + nst)) :
    ct.assigneeTrackerGo s now (Nat.succ fuel) c nst =
      (if (ct.trancheStep s c nst).assigned ≤ (ct.trancheStep s c nst).target
       then ct.assigneeTrackerGo s now fuel (ct.trancheStep s c nst) nst
       else if (ct.trancheStep s c nst).debt = 0 then ct.trancheStep s c nst
       else ct.assigneeTrackerGo s now fuel
         { ct.trancheStep s c nst with
             target := (ct.trancheStep s c nst).assigned, debt := 0 }
         (nst + ct.targets.noshowTimeout)) := by
  rw [CandidateTracker.assigneeTrackerGo]
  simp [h]

theorem trancheStep_tranche (ct : CandidateTracker) (s : StoryKind)
    (c : AssigneeStatus) (nst : Nat) :
    (ct.trancheStep s c nst).tranche = c.tranche + 1 := rfl

theorem trancheStep_approved_le (ct : CandidateTracker) (s : StoryKind)
    (c : AssigneeStatus) (nst : Nat) :
    c.approved ≤ (ct.trancheStep s c nst).approved :=
  Nat.le_add_right c.approved _

theorem assigneeTrackerGo_approved_le (ct : CandidateTracker) (s : StoryKind)
    (now : Nat) :
    ∀ (fuel : Nat) (c : AssigneeStatus) (nst : Nat),
      c.approved ≤ (ct.assigneeTrackerGo s now fuel c nst).approved := by
  intro fuel
  induction fuel with
  | zero =>
      intro c nst
      exact le_refl _
  | succ fuel ih =>
      intro c nst
      by_cases hstop : now + ct.targets.noshowTimeout < c.tranche + nst
      · rw [assigneeTrackerGo_succ_stop ct s now fuel c nst hstop]
      · rw [assigneeTrackerGo_succ_go ct s now fuel c nst hstop]
        by_cases hcont :
            (ct.trancheStep s c nst).assigned ≤ (ct.trancheStep s c nst).target
        · simp only [hcont, if_true]
          exact le_trans (trancheStep_approved_le ct s c nst) (ih _ _)
        · simp only [hcont, if_false]
          by_cases hdebt : (ct.trancheStep s c nst).debt = 0
          · simp only [hdebt, if_true]
            exact trancheStep_approved_le ct s c nst
          · simp only [hdebt, if_false]
            exact le_trans (trancheStep_approved_le ct s c nst)
              (ih { ct.trancheStep s c nst with
                      target := (ct.trancheStep s c nst).assigned, debt := 0 }
                (nst + ct.targets.noshowTimeout))

theorem assigneeTrackerGo_mono (ct : CandidateTracker) (s : StoryKind)
    (now now' : Nat) (hnow : now ≤ now') :
    ∀ (fuel fuel' : Nat) (c : AssigneeStatus) (nst : Nat),
      ct.targets.noshowTimeout ≤ nst →
      now + 1 ≤ c.tranche + fuel →
      now' + 1 ≤ c.tranche + fuel' →
      c.assigned ≤ c.target →
      (ct.assigneeTrackerGo s now fuel c nst).approved
          ≤ (ct.assigneeTrackerGo s now' fuel' c nst).approved
        ∧ ((ct.assigneeTrackerGo s now fuel c nst).isApproved = true →
            ct.assigneeTrackerGo s now' fuel' c nst
              = ct.assigneeTrackerGo s now fuel c nst) := by
  intro fuel
  induction fuel with
  | zero =>
      intro fuel' c nst hbase hfuel hfuel' hct
      have h0 : ct.assigneeTrackerGo s now 0 c nst = c := rfl
      rw [h0]
      constructor
      · exact assigneeTrackerGo_approved_le ct s now' fuel' c nst
      · intro happ
        exfalso
        simp only [AssigneeStatus.isApproved, Bool.and_eq_true,
          decide_eq_true_eq] at happ
        omega
  | succ fuel ih =>
      intro fuel' c nst hbase hfuel hfuel' hct
      by_cases hstop : now + ct.targets.noshowTimeout < c.tranche + nst
      · rw [assigneeTrackerGo_succ_stop ct s now fuel c nst hstop]
        constructor
        · exact assigneeTrackerGo_approved_le ct s now' fuel' c nst
        · intro happ
          exfalso
          simp only [AssigneeStatus.isApproved, Bool.and_eq_true,
            decide_eq_true_eq] at happ
          omega
      · have hstop' :
            ¬ (now' + ct.targets.noshowTimeout < c.tranche + nst) := by
          omega
        have htr : (ct.trancheStep s c nst).tranche = c.tranche + 1 :=
          trancheStep_tranche ct s c nst
        obtain ⟨g, rfl⟩ : ∃ g, fuel' = Nat.succ g := by
          cases fuel' with
          | zero => omega
          | succ g => exact ⟨g, rfl⟩
        rw [assigneeTrackerGo_succ_go ct s now fuel c nst hstop,
          assigneeTrackerGo_succ_go ct s now' g c nst hstop']
        by_cases hcont :
            (ct.trancheStep s c nst).assigned ≤ (ct.trancheStep s c nst).target
        · simp only [hcont, if_true]
          exact ih g (ct.trancheStep s c nst) nst hbase (by omega) (by omega)
            hcont
        · simp only [hcont, if_false]
          by_cases hdebt : (ct.trancheStep s c nst).debt = 0
          · simp only [hdebt, if_true]
            exact ⟨le_refl _, fun _ => trivial⟩
          · simp only [hdebt, if_false]
            have htr2 :
                ({ ct.trancheStep s c nst with
                     target := (ct.trancheStep s c nst).assigned,
                     debt := 0 } : AssigneeStatus).tranche = c.tranche + 1 :=
              htr
            have hct2 :
                ({ ct.trancheStep s c nst with
                     target := (ct.trancheStep s c nst).assigned,
                     debt := 0 } : AssigneeStatus).assigned
                  ≤ ({ ct.trancheStep s c nst with
                         target := (ct.trancheStep s c nst).assigned,
                         debt := 0 } : AssigneeStatus).target :=
              le_refl _
            exact ih g
              { ct.trancheStep s c nst with
                  target := (ct.trancheStep s c nst).assigned, debt := 0 }
              (nst + ct.targets.noshowTimeout)
              (Nat.le_add_left _ _) (by omega) (by omega) hct2

/-- C4: advancing time never decreases the approved count of
approval_status and never un-approves a candidate: for now <= now1 the
approved count at now1 is at least that at now, and is_approved_before is
monotone. -/
theorem approval_status_monotone (ct : CandidateTracker) (s : StoryKind)
    (now now1 : Nat) (h : now ≤ now1) :
    (ct.approvalStatus s now).approved ≤ (ct.approvalStatus s now1).approved
      ∧ (ct.isApprovedBefore now = true → ct.isApprovedBefore now1 = true) := by
  have base : ∀ s0 : StoryKind,
      (ct.assigneeTrackerGo s0 now (now + 1) (ct.initialStatus s0)
          ct.targets.noshowTimeout).approved
        ≤ (ct.assigneeTrackerGo s0 now1 (now1 + 1) (ct.initialStatus s0)
          ct.targets.noshowTimeout).approved
      ∧ ((ct.assigneeTrackerGo s0 now (now + 1) (ct.initialStatus s0)
            ct.targets.noshowTimeout).isApproved = true →
          ct.assigneeTrackerGo s0 now1 (now1 + 1) (ct.initialStatus s0)
              ct.targets.noshowTimeout
            = ct.assigneeTrackerGo s0 now (now + 1) (ct.initialStatus s0)
              ct.targets.noshowTimeout) := by
    intro s0
    exact assigneeTrackerGo_mono ct s0 now now1 h (now + 1) (now1 + 1)
      (ct.initialStatus s0) ct.targets.noshowTimeout (le_refl _)
      (by simp only [CandidateTracker.initialStatus]; omega)
      (by simp only [CandidateTracker.initialStatus]; omega)
      (by simp only [CandidateTracker.initialStatus]; omega)
  constructor
  · exact (base s).1
  · intro happ
    rw [CandidateTracker.isApprovedBefore, Bool.and_eq_true] at happ
    obtain ⟨ha, hb⟩ := happ
    rw [CandidateTracker.approvalStatus] at ha hb
    rw [CandidateTracker.isApprovedBefore, Bool.and_eq_true,
      CandidateTracker.approvalStatus, CandidateTracker.approvalStatus,
      (base StoryKind.relayVRFStory).2 ha,
      (base StoryKind.relayEquivocationStory).2 hb]
    exact ⟨ha, hb⟩

/-- Witness for C4 at a concrete candidate tracker and tranches 0 and 3. -/
def c4ctAssignment : Assignment ValidatorId :=
  { criteria := CriteriaData.relayVRFModulo 0, checker := 1,
    parachainBytes := [0], trancheBytes := [0], recieved := 0 }

def c4ct : CandidateTracker :=
  { targets := { relayVrfCheckers := 0, relayEquivocationCheckers := 0, noshowTimeout := 2 },
    checkers := [(1, { approved := true, mine := false })],
    relayVrfModulo := [(0, [c4ctAssignment])],
    relayVrfDelay := [], relayEquivocation := [] }

theorem approval_status_monotone_witness :
    (0 : Nat) ≤ 3
      ∧ ((c4ct.approvalStatus StoryKind.relayVRFStory 0).approved
            ≤ (c4ct.approvalStatus StoryKind.relayVRFStory 3).approved
          ∧ (c4ct.isApprovedBefore 0 = true → c4ct.isApprovedBefore 3 = true)) :=
  ⟨by decide, approval_status_monotone c4ct StoryKind.relayVRFStory 0 3
    (by decide)⟩

/-- Concrete relay block context: relay slot 1 (so anv_slot_number = 12),
40 delay tranches, allowed paraids 5, 9, 11. -/
def ctx0 : ApprovalContext :=
  { slot := 1, epoch := 0, hash := 0, authority := 0, numDelayTranches := 40,
    allowedParaids := [5, 9, 11], paraidsByCore := [some 5, none, some 9],
    numSamples := 1 }

/-- Concrete relay VRF story bytes. -/
def vrfStory0 : RelayVRFStory := { anvRcVrfSource := [7] }

/-- Concrete equivocation story with no known equivocations. -/
def equivStory0 : RelayEquivocationStory :=
  { header := 0, relayEquivocations := [], candidateEquivocations := [] }

/-- Concrete tracker freshly built over ctx0. -/
def c2t : Tracker := Tracker.new ctx0 vrfStory0 equivStory0 20

/-- C2 (code bug evaluation): at slot = anv_slot_number = 12 with 40 delay
tranches, the code returns some 39 because it takes
max(slot - anv_slot_number, num_delay_tranches - 1) where the spec states
min, which would give some 0; current_delay_tranche is delay_tranche at
current_slot by definition. -/
theorem delay_tranche_uses_max_not_min :
    c2t.delayTranche 12 = some 39
      ∧ c2t.delayTrancheSpec 12 = some 0
      ∧ c2t.currentDelayTranche = c2t.delayTranche c2t.currentSlot :=
  ⟨by decide, by decide, rfl⟩

/-- Concrete announcer over a fresh tracker (current_slot = 12). -/
def c3ann : Announcer :=
  { tracker := Tracker.new ctx0 vrfStory0 equivStory0 20, myself := 1,
    pendingRelayVrfDelay := [], pendingRelayEquivocation := [],
    announcedRelayVrfModulo := [], announcedRelayVrfDelay := [],
    announcedRelayEquivocation := [] }

/-- C3 (code bug evaluation): advance_anv_slot(13) on an announcer at
current_slot = 12 completes without panicking but leaves current_slot at
12 (the method never writes current_slot), contradicting the claim that it
finishes with current_slot = 13; a call with new_slot < current_slot
returns the state unchanged as claimed. -/
theorem advance_anv_slot_never_updates_slot :
    (c3ann.advanceAnvSlot 13).map (fun a => a.tracker.currentSlot) = some 12
      ∧ c3ann.advanceAnvSlot 11 = some c3ann :=
  ⟨by decide, by decide⟩

/-- Empty candidate tracker used by the C6 theorems. -/
def c6ct : CandidateTracker :=
  { targets := ApprovalTargets.default, checkers := [],
    relayVrfModulo := [], relayVrfDelay := [], relayEquivocation := [] }

/-- C6 counterexample: approving a vacant checker with mine = true stores
a CheckerStatus with mine = false, refuting the claim that approve upserts
the given mine flag. -/
theorem approve_vacant_ignores_mine_cex :
    (alLookup (c6ct.approve 7 true).2.checkers 7).map CheckerStatus.mine
        = some false
      ∧ ¬ ((alLookup (c6ct.approve 7 true).2.checkers 7).map CheckerStatus.mine
          = some true) :=
  ⟨by decide, by decide⟩

/-- C6 amended: approve(checker, mine) sets approved on an existing entry
when its mine flag agrees with the argument, errors with BadAssignment and
leaves the state unchanged when it disagrees, and on a vacant entry
inserts CheckerStatus with approved = true and mine = false regardless of
the mine argument. -/
theorem approve_amended (ct : CandidateTracker) (checker : ValidatorId)
    (mine : Bool) :
    (alLookup ct.checkers checker = none →
        ct.approve checker mine = (none, { ct with checkers :=
          (alInsert ct.checkers checker { approved := true, mine := false }) }))
      ∧ (∀ e, alLookup ct.checkers checker = some e → e.mine ≠ mine →
          ct.approve checker mine = (some (Error.BadAssignment
            ("Attempted to approve my own assignment from Tracker or visa versa!")),
            ct))
      ∧ (∀ e, alLookup ct.checkers checker = some e → e.mine = mine →
          ct.approve checker mine = (none, { ct with checkers :=
            (alInsert ct.checkers checker { e with approved := true }) })) := by
  refine ⟨?_, ?_, ?_⟩
  · intro h
    simp [CandidateTracker.approve, h]
  · intro e he hm
    simp [CandidateTracker.approve, he, bne_iff_ne, hm]
  · intro e he hm
    simp [CandidateTracker.approve, he, bne_iff_ne, hm]

/-- Witness for the C6 amended theorem on the vacant case. -/
theorem approve_amended_witness :
    alLookup c6ct.checkers 7 = none
      ∧ c6ct.approve 7 true = (none, { c6ct with checkers :=
          (alInsert c6ct.checkers 7 { approved := true, mine := false }) }) :=
  ⟨by decide, (approve_amended c6ct 7 true).1 (by decide)⟩

/-- Concrete RelayVRFModulo assignment whose parachain bytes read as the
u64 260 (little endian 4, 1). -/
def c9a : Assignment ValidatorId :=
  { criteria := CriteriaData.relayVRFModulo 0, checker := 3,
    parachainBytes := [4, 1], trancheBytes := [], recieved := 0 }

/-- C9: for a RelayVRFModulo assignment over a context with a non-empty
allowed paraid list, the derived paraid is the allowed-paraid sequence
indexed by the u64 read from the little-endian VRF output bytes under the
parachain domain tag reduced mod the sequence length, and the delay
tranche is always 0. -/
theorem relay_vrf_modulo_position {K : Type} (a : Assignment K)
    (context : ApprovalContext) (sample : Nat)
    (hcrit : a.criteria = CriteriaData.relayVRFModulo sample)
    (hne : context.allowedParaids ≠ []) :
    a.paraid context
        = some (context.allowedParaids.getD
          (u64FromLeBytes a.parachainBytes % context.allowedParaids.length) 0)
      ∧ a.delayTranche context = 0 := by
  have hlen : 0 < context.allowedParaids.length := List.length_pos.mpr hne
  have h2 : u64FromLeBytes a.parachainBytes % context.allowedParaids.length
      < context.allowedParaids.length := Nat.mod_lt _ hlen
  constructor
  · simp only [Assignment.paraid, hcrit]
    rw [dif_pos hlen]
    rw [List.getD_eq_getElem?_getD, List.getElem?_eq_getElem h2]
    rfl
  · simp only [Assignment.delayTranche, hcrit]

/-- Witness for C9 at the concrete assignment and context. -/
theorem relay_vrf_modulo_position_witness :
    ctx0.allowedParaids ≠ []
      ∧ (c9a.paraid ctx0
          = some (ctx0.allowedParaids.getD
            (u64FromLeBytes c9a.parachainBytes % ctx0.allowedParaids.length) 0)
        ∧ c9a.delayTranche ctx0 = 0) :=
  ⟨by decide, relay_vrf_modulo_position c9a ctx0 0 (by decide) (by decide)⟩

/-- Tracker with no candidates whose current_slot is 2^32 above its
anv_slot_number. -/
def c10t : Tracker :=
  { context := ctx0, currentSlot := 12 + 2 ^ 32, relayVrfStory := vrfStory0,
    relayEquivocationStory := equivStory0, candidates := [] }

/-- C10 counterexample: with an empty candidate map but current_slot at
anv_slot_number + 2^32, is_approved is none (the u32 conversion inside
delay_tranche fails on the max-based value, an expect panic in the
source), so is_approved does not return true at every current_slot. -/
theorem is_approved_empty_overflow_cex :
    ¬ (c10t.isApproved = some true) := by decide

/-- C10 amended: with no candidates, is_approved returns true whenever
current_slot is at least anv_slot_number and
max(current_slot - anv_slot_number, num_delay_tranches - 1) fits in u32
(the unconditional claim fails only through the delay_tranche conversion
panic at extreme slots). -/
theorem is_approved_empty_amended (t : Tracker)
    (hempty : t.candidates = [])
    (hslot : ¬ (t.currentSlot < t.context.anvSlotNumber))
    (hfit : max (t.currentSlot - t.context.anvSlotNumber)
        (t.context.numDelayTranches - 1) < 2 ^ 32) :
    t.isApproved = some true := by
  simp [Tracker.isApproved, Tracker.currentDelayTranche, Tracker.delayTranche,
    hslot, hfit, hempty]
  omega

/-- Fresh tracker used as the C10 witness input. -/
def c10small : Tracker := Tracker.new ctx0 vrfStory0 equivStory0 20

/-- Witness for the C10 amended theorem. -/
theorem is_approved_empty_amended_witness :
    c10small.candidates = []
      ∧ ¬ (c10small.currentSlot < c10small.context.anvSlotNumber)
      ∧ max (c10small.currentSlot - c10small.context.anvSlotNumber)
          (c10small.context.numDelayTranches - 1) < 2 ^ 32
      ∧ c10small.isApproved = some true :=
  ⟨by decide, by decide, by decide,
    is_approved_empty_amended c10small (by decide) (by decide) (by decide)⟩

/-- C5: a verified announcement cannot claim earlier arrival than its
VRF-derived tranche: verify only returns ok when received_tranche is at
least the derived tranche; whenever received_tranche < derived tranche,
verify cannot succeed, and it fails with the BadAssignment of step 4 when
the earlier steps (crypto validity, vrf_input) pass. -/
theorem verify_enforces_received_tranche (s : AssignmentSigned)
    (estory : RelayEquivocationStory) (nowTranche : Nat) :
    (∀ r, s.verify estory nowTranche = Except.ok r →
        (s.toAssignment).delayTranche s.context ≤ s.receivedTranche)
      ∧ (s.receivedTranche < (s.toAssignment).delayTranche s.context →
          s.cryptoValid = true →
          vrfInputCheck s.criteria estory = none →
          s.verify estory nowTranche = Except.error (Error.BadAssignment
            ("Announced recieved tranche before VRF-derived tranche")))
      ∧ (s.receivedTranche < (s.toAssignment).delayTranche s.context →
          ∀ r, s.verify estory nowTranche ≠ Except.ok r) := by
  by_cases hc : s.cryptoValid = false
  · refine ⟨?_, ?_, ?_⟩
    · intro r hr
      simp [AssignmentSigned.verify, hc] at hr
    · intro _ htrue _
      rw [htrue] at hc
      simp at hc
    · intro _ r hr
      simp [AssignmentSigned.verify, hc] at hr
  · cases hv : vrfInputCheck s.criteria estory with
    | some e =>
        refine ⟨?_, ?_, ?_⟩
        · intro r hr
          simp [AssignmentSigned.verify, hc, hv] at hr
        · intro _ _ hvrf
          simp at hvrf
        · intro _ r hr
          simp [AssignmentSigned.verify, hc, hv] at hr
    | none =>
        by_cases hlt :
            s.receivedTranche < (s.toAssignment).delayTranche s.context
        · refine ⟨?_, ?_, ?_⟩
          · intro r hr
            simp [AssignmentSigned.verify, hc, hv, hlt] at hr
          · intro _ _ _
            simp [AssignmentSigned.verify, hc, hv, hlt]
          · intro _ r hr
            simp [AssignmentSigned.verify, hc, hv, hlt] at hr
        · refine ⟨?_, ?_, ?_⟩
          · intro r _
            omega
          · intro hlt2
            exact absurd hlt2 hlt
          · intro hlt2
            exact absurd hlt2 hlt

/-- Concrete signed RelayVRFDelay announcement with received tranche 0 but
derived tranche 7. -/
def c5signed : AssignmentSigned :=
  { context := ctx0, criteria := CriteriaData.relayVRFDelay 5, checker := 2,
    parachainBytes := [0], trancheBytes := [7], receivedTranche := 0,
    cryptoValid := true }

/-- Witness for C5: the concrete early-claiming announcement is rejected
with the step 4 BadAssignment. -/
theorem verify_enforces_received_tranche_witness :
    c5signed.receivedTranche
        < (c5signed.toAssignment).delayTranche c5signed.context
      ∧ c5signed.verify equivStory0 0 = Except.error (Error.BadAssignment
          ("Announced recieved tranche before VRF-derived tranche")) :=
  ⟨by decide,
    (verify_enforces_received_tranche c5signed equivStory0 0).2.1 (by decide)
      (by decide) (by decide)⟩

theorem setCriteria_accessCriteria (ct : CandidateTracker) (c : CriteriaData) :
    ct.setCriteria c (ct.accessCriteria c) = ct := by
  cases c <;> rfl

/-- C7: inserting a verified assignment whose checker already has an
assignment under the same criterion, paraid and VRF-derived tranche
returns the duplicate BadAssignment and leaves the tracker unchanged (the
mine-consistency hypothesis ensures the earlier mine check does not fire
instead). -/
theorem duplicate_insert_rejected (t : Tracker) (a : Assignment ValidatorId)
    (mine : Bool) (p : ParaId) (cand : CandidateTracker)
    (hp : a.paraid t.context = some p)
    (hc : alLookup t.candidates p = some cand)
    (hmine : (match alLookup cand.checkers a.checker with
      | some cs => cs.mine == mine
      | none => true) = true)
    (hdup : ((alLookup (cand.accessCriteria a.criteria)
        (a.delayTranche t.context)).getD []).any
          (fun a0 => a0.checker = a.checker) = true) :
    t.insertAssignment a mine
      = (some (Error.BadAssignment
          ("Attempted inserting duplicate assignment!")), t) := by
  obtain ⟨v, hv, hva⟩ : ∃ v, alLookup (cand.accessCriteria a.criteria)
      (a.delayTranche t.context) = some v
        ∧ v.any (fun a0 => a0.checker = a.checker) = true := by
    cases hv0 : alLookup (cand.accessCriteria a.criteria)
        (a.delayTranche t.context) with
    | none =>
        rw [hv0] at hdup
        simp at hdup
    | some v =>
        rw [hv0] at hdup
        exact ⟨v, rfl, by simpa using hdup⟩
  have hchk : insertAssignmentChecked (cand.accessCriteria a.criteria) a
      t.context
        = (some (Error.BadAssignment
            ("Attempted inserting duplicate assignment!")),
          cand.accessCriteria a.criteria) := by
    unfold insertAssignmentChecked
    simp [hv, hva]
  cases hcs : alLookup cand.checkers a.checker with
  | none =>
      simp only [Tracker.insertAssignment, hp, hc, hcs, hchk,
        setCriteria_accessCriteria]
      rw [alInsert_self t.candidates p cand hc]
      rfl
  | some cs =>
      have hm : (cs.mine == mine) = true := by
        rw [hcs] at hmine
        simpa using hmine
      simp only [Tracker.insertAssignment, hp, hc, hcs, hchk,
        setCriteria_accessCriteria]
      simp only [bne, hm, Bool.not_true, Bool.false_eq_true, if_false]
      rw [alInsert_self t.candidates p cand hc]

/-- Concrete duplicate assignment for the C7 witness: checker 2, paraid 5,
derived tranche 3. -/
def c7a : Assignment ValidatorId :=
  { criteria := CriteriaData.relayVRFDelay 5, checker := 2,
    parachainBytes := [1], trancheBytes := [3], recieved := 3 }

/-- Candidate tracker already holding c7a in the relay-VRF-delay bucket at
its derived tranche. -/
def c7cand : CandidateTracker :=
  { targets := ApprovalTargets.default,
    checkers := [(2, { approved := false, mine := false })],
    relayVrfModulo := [], relayVrfDelay := [(3, [c7a])],
    relayEquivocation := [] }

/-- Tracker holding c7cand under paraid 5. -/
def c7t : Tracker :=
  { context := ctx0, currentSlot := 12, relayVrfStory := vrfStory0,
    relayEquivocationStory := equivStory0, candidates := [(5, c7cand)] }

/-- Witness for C7: re-inserting c7a into c7t is rejected as a duplicate
with the tracker unchanged. -/
theorem duplicate_insert_rejected_witness :
    c7a.paraid c7t.context = some 5
      ∧ c7t.insertAssignment c7a false
        = (some (Error.BadAssignment
            ("Attempted inserting duplicate assignment!")), c7t) :=
  ⟨by decide,
    duplicate_insert_rejected c7t c7a false 5 c7cand (by decide) (by decide)
      (by decide) (by decide)⟩

theorem insertAssignment_preserves (t : Tracker) (a : Assignment ValidatorId)
    (mine : Bool) :
    (t.insertAssignment a mine).2.currentSlot = t.currentSlot
      ∧ (t.insertAssignment a mine).2.context = t.context := by
  unfold Tracker.insertAssignment
  dsimp only
  (repeat' split) <;> exact ⟨rfl, rfl⟩

theorem announceDrained_preserves (context : ApprovalContext) :
    ∀ (l : List (Assignment Unit)) (ann ann' : Announcer),
      Announcer.announceDrained context ann l = some ann' →
      ann'.tracker.currentSlot = ann.tracker.currentSlot
        ∧ ann'.tracker.context = ann.tracker.context := by
  intro l
  induction l with
  | nil =>
      intro ann ann' h
      unfold Announcer.announceDrained at h
      cases h
      exact ⟨rfl, rfl⟩
  | cons a rest ih =>
      intro ann ann' h
      unfold Announcer.announceDrained at h
      split at h
      · exact absurd h (by simp)
      · split at h
        · exact absurd h (by simp)
        · simp only [] at h
          split at h
          · exact absurd h (by simp)
          · rename_i x2 recieved0 heq2 x1 paraid0 heq1 x0 heq0
            have hrec := ih _ _ h
            have hins := insertAssignment_preserves ann.tracker
              (Assignment.sign a ann.myself recieved0) true
            refine ⟨?_, ?_⟩
            · rw [hrec.1]
              exact hins.1
            · rw [hrec.2]
              exact hins.2

theorem announcePending_preserves (ann : Announcer) (tranche : Nat)
    (context : ApprovalContext)
    (assignees : List (ParaId × AssigneeStatus)) (ann2 : Announcer)
    (rest2 : List (ParaId × AssigneeStatus))
    (h : ann.announcePendingFromAssignees tranche context assignees
      = some (ann2, rest2)) :
    ann2.tracker.currentSlot = ann.tracker.currentSlot
      ∧ ann2.tracker.context = ann.tracker.context := by
  unfold Announcer.announcePendingFromAssignees at h
  simp only [] at h
  split at h
  · exact absurd h (by simp)
  · rename_i ann3 heq
    cases h
    have hd := announceDrained_preserves context _ _ _ heq
    exact ⟨hd.1, hd.2⟩

theorem advanceTranches_preserves (context : ApprovalContext) :
    ∀ (ts : List Nat) (ann ann' : Announcer)
      (m1 m2 : List (ParaId × AssigneeStatus)),
      Announcer.advanceTranches context ts ann m1 m2 = some ann' →
      ann'.tracker.currentSlot = ann.tracker.currentSlot
        ∧ ann'.tracker.context = ann.tracker.context := by
  intro ts
  induction ts with
  | nil =>
      intro ann ann' m1 m2 h
      unfold Announcer.advanceTranches at h
      cases h
      exact ⟨rfl, rfl⟩
  | cons tranche rest ih =>
      intro ann ann' m1 m2 h
      unfold Announcer.advanceTranches at h
      split at h
      · exact absurd h (by simp)
      · rename_i r1 heq1
        split at h
        · exact absurd h (by simp)
        · rename_i r2 heq2
          have h1 := announcePending_preserves ann tranche context m1 r1.1 r1.2
            (by rw [heq1])
          have h2 := announcePending_preserves r1.1 tranche context m2 r2.1 r2.2
            (by rw [heq2])
          have h3 := ih _ _ _ _ h
          refine ⟨?_, ?_⟩
          · rw [h3.1, h2.1, h1.1]
          · rw [h3.2, h2.2, h1.2]

theorem advanceAnvSlot_preserves (ann ann' : Announcer) (s : Nat)
    (h : ann.advanceAnvSlot s = some ann') :
    ann'.tracker.currentSlot = ann.tracker.currentSlot
      ∧ ann'.tracker.context = ann.tracker.context := by
  unfold Announcer.advanceAnvSlot at h
  split at h
  · cases h
    exact ⟨rfl, rfl⟩
  · split at h
    · exact absurd h (by simp)
    · split at h
      · exact absurd h (by simp)
      · exact advanceTranches_preserves _ _ _ _ _ _ h

theorem approveMine_preserves (ann : Announcer) (p : ParaId)
    (r : Option Error × Announcer) (h : ann.approveMine p = some r) :
    r.2.tracker.currentSlot = ann.tracker.currentSlot
      ∧ r.2.tracker.context = ann.tracker.context := by
  unfold Announcer.approveMine at h
  split at h
  · cases h
    exact ⟨rfl, rfl⟩
  · simp only [] at h
    split at h
    · cases h
      exact ⟨rfl, rfl⟩
    · split at h
      · exact absurd h (by simp)
      · rename_i ann2 hadv
        cases h
        have hp := advanceAnvSlot_preserves _ _ _ hadv
        exact ⟨hp.1, hp.2⟩

theorem applyOp_preserves (ann : Announcer) (op : Op) :
    ann.tracker.currentSlot ≤ (applyOp ann op).tracker.currentSlot
      ∧ (applyOp ann op).tracker.context = ann.tracker.context := by
  cases op with
  | initCandidate p => exact ⟨le_refl _, rfl⟩
  | insertAssignment a mine =>
      have h := insertAssignment_preserves ann.tracker a mine
      exact ⟨le_of_eq h.1.symm, h.2⟩
  | approveOthers p v =>
      cases hl : alLookup ann.tracker.candidates p with
      | none => simp [applyOp, hl]
      | some cand => simp [applyOp, hl]
  | approveMine p =>
      show ann.tracker.currentSlot
          ≤ (match ann.approveMine p with
              | some r => r.2
              | none => ann).tracker.currentSlot
        ∧ (match ann.approveMine p with
            | some r => r.2
            | none => ann).tracker.context = ann.tracker.context
      cases hm : ann.approveMine p with
      | none => exact ⟨le_refl _, rfl⟩
      | some r =>
          have h := approveMine_preserves ann p r hm
          exact ⟨le_of_eq h.1.symm, h.2⟩
  | watcherAdvance s => exact ⟨Nat.le_max_left _ _, rfl⟩
  | announcerAdvance s =>
      show ann.tracker.currentSlot
          ≤ ((ann.advanceAnvSlot s).getD ann).tracker.currentSlot
        ∧ ((ann.advanceAnvSlot s).getD ann).tracker.context
          = ann.tracker.context
      cases hadv : ann.advanceAnvSlot s with
      | none => exact ⟨le_refl _, rfl⟩
      | some ann2 =>
          have h := advanceAnvSlot_preserves ann ann2 s hadv
          exact ⟨le_of_eq h.1.symm, h.2⟩

theorem applyOps_preserves (ops : List Op) :
    ∀ ann : Announcer,
      ann.tracker.currentSlot ≤ (applyOps ann ops).tracker.currentSlot
        ∧ (applyOps ann ops).tracker.context = ann.tracker.context := by
  induction ops with
  | nil => intro ann; exact ⟨le_refl _, rfl⟩
  | cons op rest ih =>
      intro ann
      have h1 := applyOp_preserves ann op
      have h2 := ih (applyOp ann op)
      have hfold : applyOps ann (op :: rest) = applyOps (applyOp ann op) rest :=
        rfl
      rw [hfold]
      exact ⟨le_trans h1.1 h2.1, by rw [h2.2, h1.2]⟩

/-- C8: current_slot invariants: Tracker::new starts current_slot at
context.anv_slot_number; Watcher::advance_anv_slot sets it to the max of
current_slot and the new slot; every public operation is monotone in
current_slot; and along any legal operation sequence from a state with
current_slot at least anv_slot_number the invariant
current_slot >= context.anv_slot_number is preserved. -/
theorem current_slot_invariant :
    (∀ (context : ApprovalContext) (st : RelayVRFStory)
        (est : RelayEquivocationStory) (target : Nat),
        (Tracker.new context st est target).currentSlot
          = context.anvSlotNumber)
      ∧ (∀ (w : Watcher) (slot : Nat),
          (w.advanceAnvSlot slot).tracker.currentSlot
            = max w.tracker.currentSlot slot)
      ∧ (∀ (ann : Announcer) (op : Op),
          ann.tracker.currentSlot ≤ (applyOp ann op).tracker.currentSlot)
      ∧ (∀ (ann : Announcer) (ops : List Op),
          ann.tracker.context.anvSlotNumber ≤ ann.tracker.currentSlot →
          (applyOps ann ops).tracker.context.anvSlotNumber
            ≤ (applyOps ann ops).tracker.currentSlot) := by
  refine ⟨fun _ _ _ _ => rfl, fun _ _ => rfl,
    fun ann op => (applyOp_preserves ann op).1, ?_⟩
  intro ann ops h
  have hp := applyOps_preserves ops ann
  rw [hp.2]
  exact le_trans h hp.1

/-- Fresh announcer used as the C8 witness input. -/
def c8ann : Announcer :=
  { tracker := Tracker.new ctx0 vrfStory0 equivStory0 20, myself := 4,
    pendingRelayVrfDelay := [], pendingRelayEquivocation := [],
    announcedRelayVrfModulo := [], announcedRelayVrfDelay := [],
    announcedRelayEquivocation := [] }

/-- Witness for C8 along a two-operation trace. -/
theorem current_slot_invariant_witness :
    c8ann.tracker.context.anvSlotNumber ≤ c8ann.tracker.currentSlot
      ∧ (applyOps c8ann [Op.watcherAdvance 20,
            Op.initCandidate 9]).tracker.context.anvSlotNumber
        ≤ (applyOps c8ann [Op.watcherAdvance 20,
            Op.initCandidate 9]).tracker.currentSlot :=
  ⟨by decide, current_slot_invariant.2.2.2 c8ann
    [Op.watcherAdvance 20, Op.initCandidate 9] (by decide)⟩
